import Mathlib

/-!
# Verification of the invo-sdk-ts credential/request core

Shallow embedding of the TypeScript SDK sources:
* `src/utils.ts` — token codec (`decodeJWT`, `isTokenExpired`,
  `getSecondsUntilExpiration`);
* `src/errors.ts` — the `AuthError` class hierarchy;
* the API-token flow `InvoSDK` (constructor, `ensureAuthenticated`,
  `loginWithToken`, `apiRequest`, workspace header);
* the email/password flow `InvoSDK` (`apiRequest`, `login`,
  `refreshAccessToken`, `logout`, `isAuthenticated`, `setEnvironment`).

JavaScript runtime builtins used by the source (`atob`,
`decodeURIComponent`, `JSON.parse`, `fetch`) are external collaborators;
they are modelled as abstract functions (a `JsRuntime` record) or as an
explicit oracle describing the outcome of one `fetch` call
(`FetchOutcome`).  Mutable instance fields become explicit state records
threaded through the operations; observer callbacks (`onError`,
`onLogout`, `onTokenRefreshed`) become event lists recording each
invocation in order.
-/

namespace InvoSdk

/-- JavaScript truthiness of a `string | null | undefined` value:
`null`/`undefined` and the empty string are falsy. -/
def jsTruthy (s : Option String) : Bool :=
  match s with
  | none => false
  | some v => v ≠ ""

/-- JavaScript `a || b` for a possibly-absent string `a` with string
default `b`: returns `b` when `a` is `undefined` or the empty string. -/
def jsOr (a : Option String) (b : String) : String :=
  match a with
  | none => b
  | some v => if v = "" then b else v

/-! ## Error model (`src/errors.ts`)

Each error class becomes a value carrying its kind tag, message and
optional HTTP status code.  All six classes extend `AuthError`, so every
`ErrVal` is an `instanceof AuthError`; a plain `Error`/`TypeError` thrown
by the runtime is modelled separately by `JsError.plain`. -/

/-- The error kinds of the `AuthError` class hierarchy in
`src/errors.ts`. -/
inductive ErrKind where
  | authError
  | invalidCredentialsError
  | tokenExpiredError
  | networkError
  | invalidTokenError
  | oauthError
deriving DecidableEq, Repr

/-- A constructed error object of the `AuthError` family: kind tag,
message, and the `statusCode` field (absent when the constructor was
called without one, as `NetworkError` does). -/
structure ErrVal where
  kind : ErrKind
  message : String
  statusCode : Option Nat
deriving DecidableEq, Repr

/-- `new AuthError(message, statusCode)`. -/
def mkAuthError (message : String) (statusCode : Option Nat) : ErrVal :=
  ⟨ErrKind.authError, message, statusCode⟩

/-- `new InvalidCredentialsError(message)` — `super(message, 401)`. -/
def mkInvalidCredentialsError (message : String) : ErrVal :=
  ⟨ErrKind.invalidCredentialsError, message, some 401⟩

/-- `new TokenExpiredError(message)` — `super(message, 401)`. -/
def mkTokenExpiredError (message : String) : ErrVal :=
  ⟨ErrKind.tokenExpiredError, message, some 401⟩

/-- `new NetworkError(message)` — `super(message)`, no status code. -/
def mkNetworkError (message : String) : ErrVal :=
  ⟨ErrKind.networkError, message, none⟩

/-- `new InvalidTokenError(message)` — `super(message, 401)`. -/
def mkInvalidTokenError (message : String) : ErrVal :=
  ⟨ErrKind.invalidTokenError, message, some 401⟩

/-- A thrown JavaScript value: either an instance of the `AuthError`
family (which the `catch` blocks recognise via `instanceof AuthError`),
or a plain error (runtime `TypeError`/`SyntaxError`, `new Error(...)`)
carrying only a message. -/
inductive JsError where
  | auth (e : ErrVal)
  | plain (message : String)
deriving DecidableEq, Repr

/-! ## Token codec (`src/utils.ts`) -/

/-- The payload object produced by `JSON.parse` on a decoded token
payload, restricted to the `exp` claim used by the codec.  `exp = none`
models a payload whose `exp` property is absent (`undefined` in JS);
the claims under verification only exercise numeric or absent `exp`. -/
structure DecodedToken where
  exp : Option Int
deriving DecidableEq, Repr

/-- The JavaScript runtime builtins the token codec calls, modelled
abstractly: `none` models the builtin throwing.  `atob` is base64
decoding, `decodeURIComponent` percent-decoding (may throw `URIError`
on malformed UTF-8 sequences), `parseJson` is `JSON.parse` restricted
to the `exp` claim (`none` = `SyntaxError`). -/
structure JsRuntime where
  atob : String → Option String
  decodeURIComponent : String → Option String
  parseJson : String → Option DecodedToken

/-- `token.split('.')` — split a string on the dot character, keeping
empty segments, exactly as the JavaScript `String.prototype.split`
with a single-character separator does. -/
def splitDotAux : List Char → List Char → List String
  | [], acc => [String.mk acc.reverse]
  | '.' :: rest, acc => String.mk acc.reverse :: splitDotAux rest []
  | c :: rest, acc => splitDotAux rest (c :: acc)

/-- `token.split('.')` on a string. -/
def splitDot (s : String) : List String :=
  splitDotAux s.toList []

/-- The per-character substitution performed by the two global
single-character regex replaces in `decodeJWT`: every dash becomes a
plus and every underscore becomes a slash. -/
def b64urlChar (c : Char) : Char :=
  if c = '-' then '+' else if c = '_' then '/' else c

/-- The URL-safe-base64 to base64 conversion in `decodeJWT`. -/
def base64UrlToBase64 (s : String) : String :=
  String.mk (s.toList.map b64urlChar)

/-- `n.toString(16)` for a single hex digit (lowercase). -/
def hexDigit (n : Nat) : Char :=
  if n < 10 then Char.ofNat (48 + n) else Char.ofNat (87 + n)

/-- `'%' + ('00' + c.charCodeAt(0).toString(16)).slice(-2)` — the percent
escape of one character: the last two hex digits of its code, i.e. the
code modulo 256 as two lowercase hex digits. -/
def percentEncodeChar (c : Char) : String :=
  String.mk ['%', hexDigit ((c.toNat % 256) / 16), hexDigit (c.toNat % 16)]

/-- `atobOutput.split('').map(c => '%' + ...).join('')` in `decodeJWT`. -/
def percentEncode (s : String) : String :=
  String.join (s.toList.map percentEncodeChar)

/-- `decodeJWT(token)` from `src/utils.ts`: take the second dot-separated
segment (throwing `InvalidTokenError` when it is `undefined` or the
falsy empty string), convert URL-safe base64 to base64, `atob`,
percent-encode each byte and `decodeURIComponent`, then `JSON.parse`.
Every failure inside the `try` block — including the explicit
`InvalidTokenError('Invalid token format')` — is caught by the `catch`
and rethrown as `InvalidTokenError('Failed to decode token')`, so the
surfaced error is always that one. -/
def decodeJWT (rt : JsRuntime) (token : String) : Except ErrVal DecodedToken :=
  match (splitDot token).get? 1 with
  | none => Except.error (mkInvalidTokenError "Failed to decode token")
  | some seg =>
    if seg = "" then
      Except.error (mkInvalidTokenError "Failed to decode token")
    else
      match rt.atob (base64UrlToBase64 seg) with
      | none => Except.error (mkInvalidTokenError "Failed to decode token")
      | some bytes =>
        match rt.decodeURIComponent (percentEncode bytes) with
        | none => Except.error (mkInvalidTokenError "Failed to decode token")
        | some payload =>
          match rt.parseJson payload with
          | none => Except.error (mkInvalidTokenError "Failed to decode token")
          | some decoded => Except.ok decoded

/-- `isTokenExpired(token, bufferSeconds)` from `src/utils.ts`:
`decoded.exp < currentTime + bufferSeconds`, where `currentTime` is the
current epoch second (`now` here).  When `decoded.exp` is absent the
JavaScript comparison `undefined < n` is `false`.  Any decode failure
is caught and yields `true`. -/
def isTokenExpired (rt : JsRuntime) (now : Int) (token : String)
    (bufferSeconds : Int) : Bool :=
  match decodeJWT rt token with
  | Except.ok decoded =>
    match decoded.exp with
    | some e => decide (e < now + bufferSeconds)
    | none => false
  | Except.error _ => true

/-- `getSecondsUntilExpiration(token)` from `src/utils.ts`:
`Math.max(0, decoded.exp - currentTime)`; decode failure yields `0`.
The result is `Option Int` with `none` modelling `NaN` (the value the
JavaScript code produces when `decoded.exp` is absent, since
`Math.max(0, undefined - now)` is `NaN`). -/
def getSecondsUntilExpiration (rt : JsRuntime) (now : Int)
    (token : String) : Option Int :=
  match decodeJWT rt token with
  | Except.ok decoded =>
    match decoded.exp with
    | some e => some (max 0 (e - now))
    | none => none
  | Except.error _ => some 0

/-! ## Environment selection (API-token flow `InvoSDK`) -/

/-- The `'production' | 'sandbox'` environment tag. -/
inductive Environment where
  | production
  | sandbox
deriving DecidableEq, Repr

/-- `get apiUrl()` — the two fixed base URLs. -/
def apiUrl (e : Environment) : String :=
  match e with
  | Environment.production => "https://api.invo.rest"
  | Environment.sandbox => "https://sandbox.invo.rest"

/-- `s.startsWith(p)` on character lists (structural model of the
JavaScript `String.prototype.startsWith`). -/
def strHasPrefixChars : List Char → List Char → Bool
  | [], _ => true
  | _ :: _, [] => false
  | p :: ps, c :: cs => p = c && strHasPrefixChars ps cs

/-- `apiToken.startsWith(prefixString)`. -/
def strStartsWith (s p : String) : Bool :=
  strHasPrefixChars p.toList s.toList

/-- `detectEnvironmentFromToken(apiToken)` from the API-token flow SDK:
the literal key prefixes select the environment; `none` models the
`null` return for an unrecognised prefix. -/
def detectEnvironmentFromToken (apiToken : String) : Option Environment :=
  if strStartsWith apiToken "invo_tok_prod_" then some Environment.production
  else if strStartsWith apiToken "invo_tok_sand_" then some Environment.sandbox
  else none

/-- The string-to-environment reading used by the constructor after its
`['production', 'sandbox'].includes(...)` validation. -/
def parseEnvString (s : String) : Option Environment :=
  if s = "production" then some Environment.production
  else if s = "sandbox" then some Environment.sandbox
  else none

/-- The environment resolution in the API-token flow constructor:
`if (config.environment && !['production','sandbox'].includes(config.environment)) throw`
followed by
`this.environment = config.environment || detectedEnv || 'production'`.
`cfgEnv` is `config.environment` (`none` = absent); a present but empty
string is falsy, so it skips both the validation and the assignment.
`Except.error` models the synchronous `throw new Error(...)`. -/
def constructTokenFlowEnvironment (cfgEnv : Option String)
    (apiToken : String) : Except String Environment :=
  match cfgEnv with
  | some e =>
    if e = "" then
      Except.ok ((detectEnvironmentFromToken apiToken).getD Environment.production)
    else
      match parseEnvString e with
      | some env => Except.ok env
      | none => Except.error "Invalid environment. Allowed values are production, sandbox."
  | none =>
    Except.ok ((detectEnvironmentFromToken apiToken).getD Environment.production)

/-! ## Request executor: response classification and headers -/

/-- The object produced by `await response.json()` on an error body,
restricted to its `message` property (`none` = property absent). -/
structure ErrorBody where
  message : Option String
deriving DecidableEq, Repr

/-- The error built by both flows' `apiRequest` for a non-ok response:
`const error = await response.json().catch(() => ({message: 'Request failed'}))`
(`body = none` models the body being unparseable), then
`InvalidCredentialsError(error.message || 'Invalid credentials')` on
status 401 and `AuthError(error.message || 'Request failed', status)`
otherwise. -/
def classifyFailedResponse (status : Nat) (body : Option ErrorBody) : ErrVal :=
  let e := body.getD ⟨some "Request failed"⟩
  if status = 401 then
    mkInvalidCredentialsError (jsOr e.message "Invalid credentials")
  else
    mkAuthError (jsOr e.message "Request failed") (some status)

/-- The outcome of one `fetch` call made by `apiRequest`, as an oracle:
* `reject m` — the `fetch` promise rejects (DNS failure, connection
  refused, timeout): a plain `TypeError` with message `m`;
* `httpError status body` — a response with `response.ok` false (per
  the fetch specification, exactly a status outside 200–299); `body` is
  the parsed JSON error body, `none` when unparseable;
* `okJson v` — an ok response whose `response.json()` yields `v`;
* `okBadJson m` — an ok response whose `response.json()` rejects with a
  plain `SyntaxError` with message `m`. -/
inductive FetchOutcome (α : Type) where
  | reject (message : String)
  | httpError (status : Nat) (body : Option ErrorBody)
  | okJson (value : α)
  | okBadJson (message : String)

/-- One network request as built and sent by `apiRequest`: the full URL
and the headers object in insertion order. -/
structure FetchRecord where
  url : String
  headers : List (String × String)
deriving DecidableEq, Repr

/-- The `Content-Type` header logic of `apiRequest`:
`if (options?.contentType !== null) headers['Content-Type'] = options?.contentType || 'application/json'`.
`ct = some none` is an explicit `contentType: null` (header omitted, the
multipart case); `ct = none` is options absent/undefined; a present
empty string is falsy and falls back to the default. -/
def contentTypeHeader (ct : Option (Option String)) : List (String × String) :=
  match ct with
  | some none => []
  | some (some s) => [("Content-Type", if s = "" then "application/json" else s)]
  | none => [("Content-Type", "application/json")]

/-- The workspace header logic of the API-token flow `apiRequest`:
`if (this.workspace) headers['X-Workspace-Id'] = this.workspace`
(truthiness check: absent or empty string adds no header). -/
def workspaceHeader (workspace : Option String) : List (String × String) :=
  match workspace with
  | some w => if w = "" then [] else [("X-Workspace-Id", w)]
  | none => []

/-- The shared `catch` block of both flows' `apiRequest`: an error that
is an `instanceof AuthError` is passed to `this.onError` and rethrown;
anything else is wrapped into a `NetworkError`, passed to
`this.onError`, and thrown.  Returns the thrown error and the list of
on-error observer invocations this block performs. -/
def catchClassify (e : JsError) : ErrVal × List ErrVal :=
  match e with
  | JsError.auth a => (a, [a])
  | JsError.plain m =>
    let ne := mkNetworkError m
    (ne, [ne])

/-! ## API-token flow `InvoSDK` (sequential model)

Mutable instance fields (`accessToken`, `user`) become `TokenState`;
the immutable constructor-set fields become `TokenCfg`.  Each operation
returns a `TRun`: its result (`Except.error` = thrown), the `onError`
observer invocations in order, the final state, and the network
requests performed in order.

`apiRequest` with `requiresAuth = true` may nest one further
`apiRequest` call (the auto-login on `/auth/token`, which itself runs
with `requiresAuth = false` and so nests no further); the model unrolls
that single level of recursion: `runLoginRequest` is the inner
`apiRequest('/auth/token', 'POST', {api_token}, false)` instance and
`runApiRequestAuth` the outer `requiresAuth = true` instance.  In this
sequential (single-caller) model `loginPromise` is `null` at every
operation boundary, so the in-flight-guard branch of
`ensureAuthenticated` is never taken; the concurrent semantics of the
guard is modelled separately below (`Guard` namespace). -/

/-- The `user` object of a login response (`UserDto`). -/
structure UserDto where
  id : String
  email : String
  role : String
deriving DecidableEq, Repr

/-- `LoginResponseDto` as returned by the three auth endpoints. -/
structure LoginResponseDto where
  access_token : String
  refresh_token : String
  expires_in : Int
  user : UserDto
deriving DecidableEq, Repr

/-- Constructor-set fields of the API-token flow `InvoSDK` (none of its
methods assigns to them). -/
structure TokenCfg where
  apiToken : String
  workspace : Option String
  environment : Environment
deriving Repr

/-- The mutable token storage of the API-token flow `InvoSDK`. -/
structure TokenState where
  accessToken : Option String
  user : Option UserDto
deriving DecidableEq, Repr

/-- The fresh state after construction: no access token, no user. -/
def freshTokenState : TokenState := ⟨none, none⟩

/-- Result of running one SDK operation: its outcome (`Except.error` =
the operation throws), the `onError` observer invocations in order, the
final mutable state, and the network requests performed in order. -/
structure TRun (α : Type) where
  result : Except JsError α
  events : List ErrVal
  state : TokenState
  fetches : List FetchRecord

/-- The inner `apiRequest('/auth/token', 'POST', {api_token: ...}, false)`
call made by `loginWithToken`: headers are the default JSON content type
plus the workspace header (no `Authorization`, since
`requiresAuth = false`); the response is classified by the shared
logic; a rejecting `response.json()` on an ok response is returned (not
awaited) inside the `try`, so its plain error escapes the `catch`
without an `onError` invocation.  Does not touch the token state. -/
def runLoginRequest (cfg : TokenCfg) (o : FetchOutcome LoginResponseDto) :
    Except JsError LoginResponseDto × List ErrVal × List FetchRecord :=
  let headers := contentTypeHeader none ++ workspaceHeader cfg.workspace
  let req : FetchRecord := ⟨apiUrl cfg.environment ++ "/auth/token", headers⟩
  match o with
  | FetchOutcome.reject m =>
    let (thrown, ev) := catchClassify (JsError.plain m)
    (Except.error (JsError.auth thrown), ev, [req])
  | FetchOutcome.httpError status body =>
    let e := classifyFailedResponse status body
    let (thrown, ev) := catchClassify (JsError.auth e)
    (Except.error (JsError.auth thrown), ev, [req])
  | FetchOutcome.okJson v => (Except.ok v, [], [req])
  | FetchOutcome.okBadJson m => (Except.error (JsError.plain m), [], [req])

/-- `loginWithToken()`: run the token-exchange request; on success
`saveTokens` stores the access token and user; on failure the state is
untouched and the error propagates (`loginWithToken` has no handler of
its own). -/
def runLoginWithToken (cfg : TokenCfg) (st : TokenState)
    (o : FetchOutcome LoginResponseDto) : TRun LoginResponseDto :=
  let (res, ev, fr) := runLoginRequest cfg o
  match res with
  | Except.ok r => ⟨Except.ok r, ev, ⟨some r.access_token, some r.user⟩, fr⟩
  | Except.error e => ⟨Except.error e, ev, st, fr⟩

/-- `ensureAuthenticated()` in the sequential model: return immediately
when a truthy, non-expired (zero-skew check) access token is present;
otherwise run `loginWithToken` (the `loginPromise` guard branch is
unreachable with a single caller, and the `finally` restores
`loginPromise = null`). -/
def runEnsureAuthenticated (rt : JsRuntime) (now : Int) (cfg : TokenCfg)
    (st : TokenState) (o : FetchOutcome LoginResponseDto) : TRun Unit :=
  if jsTruthy st.accessToken
      && !(isTokenExpired rt now (st.accessToken.getD "") 0) then
    ⟨Except.ok (), [], st, []⟩
  else
    let r := runLoginWithToken cfg st o
    match r.result with
    | Except.ok _ => ⟨Except.ok (), r.events, r.state, r.fetches⟩
    | Except.error e => ⟨Except.error e, r.events, r.state, r.fetches⟩

/-- The tail of the token-flow `apiRequest` `try` block once
`ensureAuthenticated` has succeeded with a truthy token: attach
`Authorization: Bearer` and the workspace header, perform the fetch and
classify the response; `ev0`/`fr0` are the observer events and network
requests already produced by the auto-login. -/
def tokenMainFetch (α : Type) (cfg : TokenCfg) (st1 : TokenState)
    (ev0 : List ErrVal) (fr0 : List FetchRecord) (endpoint : String)
    (ct : Option (Option String)) (mo : FetchOutcome α) : TRun α :=
  let token := st1.accessToken.getD ""
  let headers := contentTypeHeader ct
    ++ [("Authorization", "Bearer " ++ token)]
    ++ workspaceHeader cfg.workspace
  let req : FetchRecord := ⟨apiUrl cfg.environment ++ endpoint, headers⟩
  match mo with
  | FetchOutcome.reject m =>
    let (thrown, ev) := catchClassify (JsError.plain m)
    ⟨Except.error (JsError.auth thrown), ev0 ++ ev, st1, fr0 ++ [req]⟩
  | FetchOutcome.httpError status body =>
    let e := classifyFailedResponse status body
    let (thrown, ev) := catchClassify (JsError.auth e)
    ⟨Except.error (JsError.auth thrown), ev0 ++ ev, st1, fr0 ++ [req]⟩
  | FetchOutcome.okJson v =>
    ⟨Except.ok v, ev0, st1, fr0 ++ [req]⟩
  | FetchOutcome.okBadJson m =>
    ⟨Except.error (JsError.plain m), ev0, st1, fr0 ++ [req]⟩

/-- The outer `apiRequest(endpoint, method, body, true, options)` of the
API-token flow: inside the `try`, run `ensureAuthenticated`, whose
thrown error — or the
`TokenExpiredError('No access token available after authentication.')`
when the token is still falsy afterwards — propagates to this call's
own `catch`, firing `onError` here a second time on top of the nested
request's own invocation; otherwise the fetch proceeds via
`tokenMainFetch`. -/
def runApiRequestAuth (α : Type) (rt : JsRuntime) (now : Int)
    (cfg : TokenCfg) (st : TokenState) (endpoint : String)
    (ct : Option (Option String)) (loginOutcome : FetchOutcome LoginResponseDto)
    (mainOutcome : FetchOutcome α) : TRun α :=
  match runEnsureAuthenticated rt now cfg st loginOutcome with
  | ⟨Except.error e, ev0, st1, fr0⟩ =>
    let (thrown, ev) := catchClassify e
    ⟨Except.error (JsError.auth thrown), ev0 ++ ev, st1, fr0⟩
  | ⟨Except.ok _, ev0, st1, fr0⟩ =>
    if jsTruthy st1.accessToken = false then
      let te := mkTokenExpiredError "No access token available after authentication."
      let (thrown, ev) := catchClassify (JsError.auth te)
      ⟨Except.error (JsError.auth thrown), ev0 ++ ev, st1, fr0⟩
    else
      tokenMainFetch α cfg st1 ev0 fr0 endpoint ct mainOutcome

/-- `isAuthenticated()` of the API-token flow: falsy access token is
`false`, otherwise `!isTokenExpired(token)` (zero skew); the
`try`/`catch` around it is dead code since `isTokenExpired` never
throws. -/
def tokenFlowIsAuthenticated (rt : JsRuntime) (now : Int)
    (st : TokenState) : Bool :=
  if jsTruthy st.accessToken then
    !(isTokenExpired rt now (st.accessToken.getD "") 0)
  else
    false

/-! ## Email/password flow `InvoSDK` (sequential model)

The password-flow variant.  Its `environment` field is mutable (the
public `setEnvironment` assigns to it), so it lives in the state record
`PwState` together with the token storage and the auto-refresh timer;
the remaining constructor-set fields (`email`, `password`,
`autoRefresh`, `refreshBuffer`), which no method assigns to, form
`PwCfg`.  The live scheduled refresh timer is `refreshTimer : Option Int`
(the delay in milliseconds passed to `setTimeout`; `none` = no live
timer; `clearTimeout` makes it `none`). -/

/-- Constructor-set fields of the password-flow `InvoSDK`. -/
structure PwCfg where
  email : String
  password : String
  autoRefresh : Bool
  refreshBuffer : Int
deriving Repr

/-- Mutable instance fields of the password-flow `InvoSDK`. -/
structure PwState where
  environment : Environment
  accessToken : Option String
  refreshToken : Option String
  user : Option UserDto
  refreshTimer : Option Int
deriving DecidableEq, Repr

/-- One observer invocation of the password-flow SDK. -/
inductive PwEvent where
  | errorEvent (e : ErrVal)
  | logoutEvent
  | tokenRefreshedEvent (r : LoginResponseDto)
deriving DecidableEq, Repr

/-- Result of running one password-flow operation. -/
structure PwRun (α : Type) where
  result : Except JsError α
  events : List PwEvent
  state : PwState
  fetches : List FetchRecord

/-- An `apiRequest(endpoint, 'POST', body, false)` call of the
password-flow SDK (used by `login` and `refreshAccessToken`): default
JSON content type, no `Authorization` (and this variant has no
workspace header); response classification and `catch` identical to the
token flow.  Does not touch the state. -/
def runPwNoAuthRequest (st : PwState) (endpoint : String)
    (o : FetchOutcome LoginResponseDto) :
    Except JsError LoginResponseDto × List PwEvent × List FetchRecord :=
  let headers := contentTypeHeader none
  let req : FetchRecord := ⟨apiUrl st.environment ++ endpoint, headers⟩
  match o with
  | FetchOutcome.reject m =>
    let (thrown, ev) := catchClassify (JsError.plain m)
    (Except.error (JsError.auth thrown), ev.map PwEvent.errorEvent, [req])
  | FetchOutcome.httpError status body =>
    let e := classifyFailedResponse status body
    let (thrown, ev) := catchClassify (JsError.auth e)
    (Except.error (JsError.auth thrown), ev.map PwEvent.errorEvent, [req])
  | FetchOutcome.okJson v => (Except.ok v, [], [req])
  | FetchOutcome.okBadJson m => (Except.error (JsError.plain m), [], [req])

/-- `setupAutoRefresh()`: clear any existing timer; if the access token
is falsy, return with no live timer; otherwise decode it and schedule a
refresh in `max(0, (decoded.exp - now) - refreshBuffer) * 1000`
milliseconds.  A decode failure is caught (log only): no timer is
scheduled.  An absent `exp` claim makes the JavaScript arithmetic
produce `NaN`, which `setTimeout` coerces to a zero delay. -/
def setupAutoRefresh (rt : JsRuntime) (now : Int) (cfg : PwCfg)
    (st : PwState) : PwState :=
  let cleared := { st with refreshTimer := none }
  if jsTruthy st.accessToken = false then cleared
  else
    match decodeJWT rt (st.accessToken.getD "") with
    | Except.error _ => cleared
    | Except.ok decoded =>
      match decoded.exp with
      | some e =>
        { cleared with
          refreshTimer := some (max 0 (e - now - cfg.refreshBuffer) * 1000) }
      | none => { cleared with refreshTimer := some 0 }

/-- `saveTokens(response)` of the password flow: store the access token,
refresh token and user, then `setupAutoRefresh()` when `autoRefresh` is
enabled. -/
def pwSaveTokens (rt : JsRuntime) (now : Int) (cfg : PwCfg) (st : PwState)
    (r : LoginResponseDto) : PwState :=
  let st1 := { st with
    accessToken := some r.access_token
    refreshToken := some r.refresh_token
    user := some r.user }
  if cfg.autoRefresh then setupAutoRefresh rt now cfg st1 else st1

/-- `login()`: POST the configured email and password to `/auth/login`
without an auth header; on success `saveTokens`; on failure the state
is untouched and the classified error propagates. -/
def runPwLogin (rt : JsRuntime) (now : Int) (cfg : PwCfg) (st : PwState)
    (o : FetchOutcome LoginResponseDto) : PwRun LoginResponseDto :=
  let (res, ev, fr) := runPwNoAuthRequest st "/auth/login" o
  match res with
  | Except.ok r => ⟨Except.ok r, ev, pwSaveTokens rt now cfg st r, fr⟩
  | Except.error e => ⟨Except.error e, ev, st, fr⟩

/-- `refreshAccessToken()`: a falsy stored refresh token throws
`TokenExpiredError('No refresh token available')` before any request is
made; otherwise POST the refresh token to `/auth/refresh` without an
auth header; on success `saveTokens` and invoke the on-token-refreshed
observer; on failure the state is untouched and the error propagates
(`refreshAccessToken` itself has no `catch`, so the direct throw goes
through no observer here). -/
def runPwRefresh (rt : JsRuntime) (now : Int) (cfg : PwCfg) (st : PwState)
    (o : FetchOutcome LoginResponseDto) : PwRun LoginResponseDto :=
  match st.refreshToken with
  | none =>
    ⟨Except.error (JsError.auth (mkTokenExpiredError "No refresh token available")),
      [], st, []⟩
  | some rtok =>
    if rtok = "" then
      ⟨Except.error (JsError.auth (mkTokenExpiredError "No refresh token available")),
        [], st, []⟩
    else
      let (res, ev, fr) := runPwNoAuthRequest st "/auth/refresh" o
      match res with
      | Except.ok r =>
        ⟨Except.ok r, ev ++ [PwEvent.tokenRefreshedEvent r],
          pwSaveTokens rt now cfg st r, fr⟩
      | Except.error e => ⟨Except.error e, ev, st, fr⟩

/-- `logout()`: cancel any scheduled refresh timer, clear the access
token, refresh token and user, and invoke the on-logout observer.  Only
the credential fields change; `environment` is untouched. -/
def runPwLogout (st : PwState) : PwState × List PwEvent :=
  ({ st with
      accessToken := none
      refreshToken := none
      user := none
      refreshTimer := none },
    [PwEvent.logoutEvent])

/-- `isAuthenticated()` of the password flow: falsy access token is
`false`, otherwise `!isTokenExpired(token)` with zero skew. -/
def pwIsAuthenticated (rt : JsRuntime) (now : Int) (st : PwState) : Bool :=
  if jsTruthy st.accessToken then
    !(isTokenExpired rt now (st.accessToken.getD "") 0)
  else
    false

/-- `setEnvironment(env)`: the public mutator assigning
`this.environment = env`. -/
def setEnvironment (st : PwState) (env : Environment) : PwState :=
  { st with environment := env }

/-- The tail of the password-flow `apiRequest` `try` block once the
auth step has succeeded: attach `Authorization: Bearer` with the
current (possibly just-refreshed) access token of `st1`, perform the
fetch and classify the response; `ev0`/`fr0` are the observer events
and network requests already produced by the auth step. -/
def pwMainFetch (α : Type) (st1 : PwState) (ev0 : List PwEvent)
    (fr0 : List FetchRecord) (endpoint : String)
    (ct : Option (Option String)) (mo : FetchOutcome α) : PwRun α :=
  let token := st1.accessToken.getD ""
  let headers := contentTypeHeader ct
    ++ [("Authorization", "Bearer " ++ token)]
  let req : FetchRecord := ⟨apiUrl st1.environment ++ endpoint, headers⟩
  match mo with
  | FetchOutcome.reject m =>
    let (thrown, ev) := catchClassify (JsError.plain m)
    ⟨Except.error (JsError.auth thrown), ev0 ++ ev.map PwEvent.errorEvent,
      st1, fr0 ++ [req]⟩
  | FetchOutcome.httpError status body =>
    let e := classifyFailedResponse status body
    let (thrown, ev) := catchClassify (JsError.auth e)
    ⟨Except.error (JsError.auth thrown), ev0 ++ ev.map PwEvent.errorEvent,
      st1, fr0 ++ [req]⟩
  | FetchOutcome.okJson v =>
    ⟨Except.ok v, ev0, st1, fr0 ++ [req]⟩
  | FetchOutcome.okBadJson m =>
    ⟨Except.error (JsError.plain m), ev0, st1, fr0 ++ [req]⟩

/-- The password-flow `apiRequest(endpoint, method, body, true, options)`:
inside the `try`, a falsy access token throws
`TokenExpiredError('No access token available. Please login first.')`;
an expired token triggers `await this.refreshAccessToken()`, whose
failure propagates to this call's own `catch` (firing `onError` here on
top of any invocation the nested refresh request already made); then
the fetch proceeds via `pwMainFetch`. -/
def runPwApiRequestAuth (α : Type) (rt : JsRuntime) (now : Int)
    (cfg : PwCfg) (st : PwState) (endpoint : String)
    (ct : Option (Option String))
    (refreshOutcome : FetchOutcome LoginResponseDto)
    (mainOutcome : FetchOutcome α) : PwRun α :=
  if jsTruthy st.accessToken = false then
    let te := mkTokenExpiredError "No access token available. Please login first."
    let (thrown, ev) := catchClassify (JsError.auth te)
    ⟨Except.error (JsError.auth thrown), ev.map PwEvent.errorEvent, st, []⟩
  else if isTokenExpired rt now (st.accessToken.getD "") 0 then
    match runPwRefresh rt now cfg st refreshOutcome with
    | ⟨Except.error e, ev0, st1, fr0⟩ =>
      let (thrown, ev) := catchClassify e
      ⟨Except.error (JsError.auth thrown), ev0 ++ ev.map PwEvent.errorEvent,
        st1, fr0⟩
    | ⟨Except.ok _, ev0, st1, fr0⟩ =>
      pwMainFetch α st1 ev0 fr0 endpoint ct mainOutcome
  else
    pwMainFetch α st [] [] endpoint ct mainOutcome

namespace Guard

/-! ## Concurrent semantics of the in-flight login guard

A small-step model of `N` concurrent callers entering the API-token
flow's `ensureAuthenticated` on a fresh instance, under JavaScript's
single-threaded cooperative scheduling: each caller runs atomically
from its entry until its first `await`.  The steps:

* a caller at its first run sees a truthy valid `accessToken` and
  returns (`startDone`);
* or sees `loginPromise` set and suspends awaiting it (`startWait`,
  the in-flight-guard branch);
* or, with no token and no guard, assigns
  `this.loginPromise = this.loginWithToken()` — which synchronously
  initiates the `POST /auth/token` network call — and suspends awaiting
  it (`startLogin`; `loginCalls` counts the network login calls);
* the network response for the pending login arrives (`respond`);
* the login continuation runs: `saveTokens` stores the token, the
  promise resolves, and the first caller's `finally` clears
  `loginPromise` (`resolve`; the model covers the successful-login
  scenario the claim describes);
* a caller suspended on the resolved promise resumes and returns
  (`wake`).

A caller's program counter reaching `done` means its
`ensureAuthenticated` has completed, after which (and only after which)
its own authenticated request proceeds. -/

/-- The program counter of one concurrent caller of
`ensureAuthenticated`. -/
inductive TaskPC where
  | start
  | waiting
  | done
deriving DecidableEq, Repr

/-- Global state of the fresh SDK instance plus the `n` callers:
`token` = a valid access token is stored; `guard` = `loginPromise` is
non-null; `loginCalls` = number of `POST /auth/token` network calls
made; `responded` = the response for the pending login has arrived;
`resolved` = the login promise has resolved (tokens saved). -/
structure CState (n : Nat) where
  token : Bool
  guard : Bool
  loginCalls : Nat
  responded : Bool
  resolved : Bool
  tasks : Fin n → TaskPC

/-- Update one caller's program counter. -/
def setTask {n : Nat} (f : Fin n → TaskPC) (i : Fin n) (v : TaskPC) :
    Fin n → TaskPC :=
  fun j => if j = i then v else f j

/-- The fresh-instance initial state: no token, no in-flight login, no
network call made, every caller about to enter `ensureAuthenticated`. -/
def initState (n : Nat) : CState n :=
  ⟨false, false, 0, false, false, fun _ => TaskPC.start⟩

/-- One atomic step of the cooperative schedule. -/
inductive Step {n : Nat} : CState n → CState n → Prop
  | startDone (s : CState n) (i : Fin n) :
      s.tasks i = TaskPC.start → s.token = true →
      Step s { s with tasks := setTask s.tasks i TaskPC.done }
  | startWait (s : CState n) (i : Fin n) :
      s.tasks i = TaskPC.start → s.token = false → s.guard = true →
      Step s { s with tasks := setTask s.tasks i TaskPC.waiting }
  | startLogin (s : CState n) (i : Fin n) :
      s.tasks i = TaskPC.start → s.token = false → s.guard = false →
      Step s { s with
        guard := true
        loginCalls := s.loginCalls + 1
        tasks := setTask s.tasks i TaskPC.waiting }
  | respond (s : CState n) :
      1 ≤ s.loginCalls → s.responded = false →
      Step s { s with responded := true }
  | resolve (s : CState n) :
      s.responded = true → s.resolved = false →
      Step s { s with token := true, resolved := true, guard := false }
  | wake (s : CState n) (i : Fin n) :
      s.tasks i = TaskPC.waiting → s.resolved = true →
      Step s { s with tasks := setTask s.tasks i TaskPC.done }

/-- States reachable from the fresh-instance initial state. -/
inductive Reach (n : Nat) : CState n → Prop
  | init : Reach n (initState n)
  | step (s s' : CState n) : Reach n s → Step s s' → Reach n s'

/-- The inductive invariant of the in-flight-guard protocol. -/
def Inv {n : Nat} (s : CState n) : Prop :=
  s.loginCalls ≤ 1
  ∧ (s.resolved = true → s.token = true ∧ s.responded = true)
  ∧ (s.token = true → s.resolved = true)
  ∧ (s.responded = true → s.loginCalls = 1)
  ∧ (s.guard = true → s.loginCalls = 1 ∧ s.resolved = false)
  ∧ (s.loginCalls = 1 → s.resolved = false → s.guard = true)
  ∧ (∀ i, s.tasks i = TaskPC.done → s.resolved = true)
  ∧ (∀ i, s.tasks i = TaskPC.waiting → s.loginCalls = 1)

theorem inv_init (n : Nat) : Inv (initState n) := by
  refine ⟨by simp [initState], ?_, ?_, ?_, ?_, ?_, ?_, ?_⟩ <;>
    simp [initState]

theorem setTask_self {n : Nat} (f : Fin n → TaskPC) (i : Fin n)
    (v : TaskPC) : setTask f i v i = v := by
  simp [setTask]

theorem setTask_other {n : Nat} (f : Fin n → TaskPC) (i j : Fin n)
    (v : TaskPC) (h : ¬ j = i) : setTask f i v j = f j := by
  simp [setTask, h]

theorem inv_step {n : Nat} {s s' : CState n} (hs : Inv s) (h : Step s s') :
    Inv s' := by
  obtain ⟨h1, h2, h3, h4, h5, h6, h7, h8⟩ := hs
  cases h with
  | startDone i hpc htok =>
    refine ⟨h1, h2, h3, h4, h5, h6, ?_, ?_⟩
    · intro j hj
      by_cases hji : j = i
      · exact h3 htok
      · rw [show ({ s with tasks := setTask s.tasks i TaskPC.done } : CState n).tasks = setTask s.tasks i TaskPC.done from rfl, setTask_other s.tasks i j TaskPC.done hji] at hj
        exact h7 j hj
    · intro j hj
      by_cases hji : j = i
      · subst hji
        rw [show ({ s with tasks := setTask s.tasks j TaskPC.done } : CState n).tasks = setTask s.tasks j TaskPC.done from rfl, setTask_self] at hj
        exact absurd hj (by simp)
      · rw [show ({ s with tasks := setTask s.tasks i TaskPC.done } : CState n).tasks = setTask s.tasks i TaskPC.done from rfl, setTask_other s.tasks i j TaskPC.done hji] at hj
        exact h8 j hj
  | startWait i hpc htok hg =>
    refine ⟨h1, h2, h3, h4, h5, h6, ?_, ?_⟩
    · intro j hj
      by_cases hji : j = i
      · subst hji
        rw [show ({ s with tasks := setTask s.tasks j TaskPC.waiting } : CState n).tasks = setTask s.tasks j TaskPC.waiting from rfl, setTask_self] at hj
        exact absurd hj (by simp)
      · rw [show ({ s with tasks := setTask s.tasks i TaskPC.waiting } : CState n).tasks = setTask s.tasks i TaskPC.waiting from rfl, setTask_other s.tasks i j TaskPC.waiting hji] at hj
        exact h7 j hj
    · intro j hj
      exact (h5 hg).1
  | startLogin i hpc htok hg =>
    have hres : s.resolved = false := by
      cases hr : s.resolved with
      | false => rfl
      | true => exact absurd ((h2 hr).1) (by simp [htok])
    have hc0 : s.loginCalls = 0 := by
      rcases Nat.lt_or_ge s.loginCalls 1 with hlt | hge
      · omega
      · have h11 : s.loginCalls = 1 := by omega
        exact absurd (h6 h11 hres) (by simp [hg])
    refine ⟨by simp [hc0], ?_, ?_, ?_, ?_, ?_, ?_, ?_⟩
    · intro hr; exact absurd hr (by simp [hres])
    · intro ht; exact absurd ht (by simp [htok])
    · intro hr
      have := h4 hr; omega
    · intro _
      exact ⟨by simp [hc0], hres⟩
    · intro _ _; rfl
    · intro j hj
      by_cases hji : j = i
      · subst hji
        rw [show ({ s with guard := true, loginCalls := s.loginCalls + 1, tasks := setTask s.tasks j TaskPC.waiting } : CState n).tasks = setTask s.tasks j TaskPC.waiting from rfl, setTask_self] at hj
        exact absurd hj (by simp)
      · rw [show ({ s with guard := true, loginCalls := s.loginCalls + 1, tasks := setTask s.tasks i TaskPC.waiting } : CState n).tasks = setTask s.tasks i TaskPC.waiting from rfl, setTask_other s.tasks i j TaskPC.waiting hji] at hj
        exact absurd (h7 j hj) (by simp [hres])
    · intro j hj
      simp [hc0]
  | respond hcalls hresp =>
    have hc1 : s.loginCalls = 1 := by omega
    refine ⟨h1, ?_, ?_, ?_, ?_, ?_, h7, h8⟩
    · intro hr; exact ⟨(h2 hr).1, rfl⟩
    · intro ht; exact h3 ht
    · intro _; exact hc1
    · intro hg; exact h5 hg
    · intro hca hre; exact h6 hca hre
  | resolve hresp hres =>
    refine ⟨h1, ?_, ?_, ?_, ?_, ?_, ?_, ?_⟩
    · intro _; exact ⟨rfl, hresp⟩
    · intro _; rfl
    · intro _; exact h4 hresp
    · intro hg; exact absurd hg (by simp)
    · intro _ hr; exact absurd hr (by simp)
    · intro j _; rfl
    · intro j hj; exact h4 hresp
  | wake i hpc hres =>
    refine ⟨h1, h2, h3, h4, h5, h6, ?_, ?_⟩
    · intro j hj
      by_cases hji : j = i
      · exact hres
      · rw [show ({ s with tasks := setTask s.tasks i TaskPC.done } : CState n).tasks = setTask s.tasks i TaskPC.done from rfl, setTask_other s.tasks i j TaskPC.done hji] at hj
        exact h7 j hj
    · intro j hj
      by_cases hji : j = i
      · subst hji
        rw [show ({ s with tasks := setTask s.tasks j TaskPC.done } : CState n).tasks = setTask s.tasks j TaskPC.done from rfl, setTask_self] at hj
        exact absurd hj (by simp)
      · rw [show ({ s with tasks := setTask s.tasks i TaskPC.done } : CState n).tasks = setTask s.tasks i TaskPC.done from rfl, setTask_other s.tasks i j TaskPC.done hji] at hj
        exact h8 j hj

theorem inv_reach {n : Nat} {s : CState n} (h : Reach n s) : Inv s := by
  induction h with
  | init => exact inv_init n
  | step s s' _ hstep ih => exact inv_step ih hstep

end Guard

/-! ## Shared helper lemmas and concrete evaluation data -/

/-- A concrete `JsRuntime` used to evaluate the codec theorems on
explicit tokens: base64 decoding and percent decoding act as the
identity on the strings involved, and the JSON parser recognises the
single payload `"%70"` (the percent-encoding of the segment `"p"`),
giving it the numeric `exp` claim `5`. -/
def testRuntime : JsRuntime :=
  ⟨fun s => some s, fun s => some s,
   fun s => if s = "%70" then some ⟨some 5⟩ else none⟩

/-- Every error `decodeJWT` produces is the
`InvalidTokenError('Failed to decode token')` built by its `catch`. -/
theorem decodeJWT_error_eq (rt : JsRuntime) (token : String) (e : ErrVal)
    (h : decodeJWT rt token = Except.error e) :
    e = mkInvalidTokenError "Failed to decode token" := by
  unfold decodeJWT at h
  rcases hs : (splitDot token).get? 1 with _ | seg
  · simp only [hs, Except.error.injEq] at h
    exact h.symm
  · simp only [hs] at h
    by_cases hseg : seg = ""
    · simp only [if_pos hseg, Except.error.injEq] at h
      exact h.symm
    · simp only [if_neg hseg] at h
      rcases ha : rt.atob (base64UrlToBase64 seg) with _ | bytes
      · simp only [ha, Except.error.injEq] at h
        exact h.symm
      · simp only [ha] at h
        rcases hd : rt.decodeURIComponent (percentEncode bytes) with _ | payload
        · simp only [hd, Except.error.injEq] at h
          exact h.symm
        · simp only [hd] at h
          rcases hp : rt.parseJson payload with _ | d
          · simp only [hp, Except.error.injEq] at h
            exact h.symm
          · simp only [hp] at h
            exact absurd h (by simp)

/-- Positionwise agreement under the character-list prefix check. -/
theorem strHasPrefixChars_get (ps : List Char) :
    ∀ (l : List Char) (i : Nat) (c : Char),
      strHasPrefixChars ps l = true → ps.get? i = some c →
      l.get? i = some c := by
  induction ps with
  | nil =>
    intro l i c _ hget
    simp at hget
  | cons p ps ih =>
    intro l i c hpre hget
    cases l with
    | nil => simp [strHasPrefixChars] at hpre
    | cons x xs =>
      simp only [strHasPrefixChars, Bool.and_eq_true, decide_eq_true_eq] at hpre
      cases i with
      | zero =>
        simp only [List.get?] at hget ⊢
        rw [← hpre.1]
        exact hget
      | succ j =>
        simp only [List.get?] at hget ⊢
        exact ih xs j c hpre.2 hget

/-- A key starting with the sandbox prefix cannot also start with the
production prefix: the two literals differ at index 9. -/
theorem sand_not_prod (key : String)
    (h : strStartsWith key "invo_tok_sand_" = true) :
    strStartsWith key "invo_tok_prod_" = false := by
  by_contra hc
  have hp : strStartsWith key "invo_tok_prod_" = true := by
    cases hv : strStartsWith key "invo_tok_prod_" with
    | false => exact absurd hv hc
    | true => rfl
  have h1 : key.toList.get? 9 = some 's' :=
    strHasPrefixChars_get ("invo_tok_sand_".toList) key.toList 9 's' h (by decide)
  have h2 : key.toList.get? 9 = some 'p' :=
    strHasPrefixChars_get ("invo_tok_prod_".toList) key.toList 9 'p' hp (by decide)
  rw [h1] at h2
  exact absurd h2 (by decide)

/-! ## Claim theorems -/

/-- C2: for every token whose decoded payload has numeric claim
`exp = now + D` and every skew `S ≥ 0`, `isTokenExpired(T, S)` returns
`true` if and only if `D < S`; in particular with `D = S` it returns
`false`. -/
theorem claim_C2 (rt : JsRuntime) (now D S : Int) (token : String)
    (d : DecodedToken) (hdec : decodeJWT rt token = Except.ok d)
    (hexp : d.exp = some (now + D)) (hS : 0 ≤ S) :
    (isTokenExpired rt now token S = true ↔ D < S) ∧
    (D = S → isTokenExpired rt now token S = false) := by
  have h : isTokenExpired rt now token S = decide (now + D < now + S) := by
    unfold isTokenExpired
    simp only [hdec, hexp]
  constructor
  · rw [h, decide_eq_true_eq]
    omega
  · intro hDS
    subst hDS
    rw [h]
    simp

/-- Witness for C2 at the concrete token `"h.p"` under `testRuntime`,
with `now = 0`, `D = 5`, `S = 3`. -/
theorem claim_C2_witness :
    (isTokenExpired testRuntime 0 "h.p" 3 = true ↔ (5 : Int) < 3) ∧
    ((5 : Int) = 3 → isTokenExpired testRuntime 0 "h.p" 3 = false) :=
  claim_C2 testRuntime 0 5 3 "h.p" ⟨some 5⟩ rfl (by decide) (by decide)

/-- C3: for every malformed token — missing second dot-separated
segment (or a falsy empty one), a payload segment whose base64 decoding
fails, or a decoded payload that is not parseable as JSON — `decodeJWT`
fails with the `InvalidTokenError` kind, `isTokenExpired` returns
`true` for every skew, and `getSecondsUntilExpiration` returns `0`;
neither of the latter two propagates the decode failure. -/
theorem claim_C3 (rt : JsRuntime) (now S : Int) (token : String) :
    (((splitDot token).get? 1 = none ∨ (splitDot token).get? 1 = some "") →
      decodeJWT rt token =
        Except.error (mkInvalidTokenError "Failed to decode token")) ∧
    (∀ seg, (splitDot token).get? 1 = some seg → seg ≠ "" →
      rt.atob (base64UrlToBase64 seg) = none →
      decodeJWT rt token =
        Except.error (mkInvalidTokenError "Failed to decode token")) ∧
    (∀ seg bytes payload, (splitDot token).get? 1 = some seg → seg ≠ "" →
      rt.atob (base64UrlToBase64 seg) = some bytes →
      rt.decodeURIComponent (percentEncode bytes) = some payload →
      rt.parseJson payload = none →
      decodeJWT rt token =
        Except.error (mkInvalidTokenError "Failed to decode token")) ∧
    (∀ e, decodeJWT rt token = Except.error e →
      e.kind = ErrKind.invalidTokenError ∧
      isTokenExpired rt now token S = true ∧
      getSecondsUntilExpiration rt now token = some 0) := by
  refine ⟨?_, ?_, ?_, ?_⟩
  · rintro (hs | hs)
    · unfold decodeJWT
      simp only [hs]
    · unfold decodeJWT
      simp only [hs, if_pos]
  · intro seg hs hseg ha
    unfold decodeJWT
    simp only [hs]
    rw [if_neg hseg]
    simp only [ha]
  · intro seg bytes payload hs hseg ha hd hp
    unfold decodeJWT
    simp only [hs]
    rw [if_neg hseg]
    simp only [ha, hd, hp]
  · intro e he
    refine ⟨?_, ?_, ?_⟩
    · rw [decodeJWT_error_eq rt token e he]
      rfl
    · unfold isTokenExpired
      rw [he]
    · unfold getSecondsUntilExpiration
      rw [he]

/-- Witness for C3 at the concrete malformed token `"abc"` (no second
segment) under `testRuntime`. -/
theorem claim_C3_witness :
    (mkInvalidTokenError "Failed to decode token").kind =
      ErrKind.invalidTokenError ∧
    isTokenExpired testRuntime 0 "abc" 7 = true ∧
    getSecondsUntilExpiration testRuntime 0 "abc" = some 0 :=
  (claim_C3 testRuntime 0 7 "abc").2.2.2
    (mkInvalidTokenError "Failed to decode token") rfl

/-- C8: without an explicit environment, the key prefix
`invo_tok_prod_` yields production, `invo_tok_sand_` yields sandbox,
any other key (unrecognised prefix) yields production with
construction succeeding; an explicit valid environment takes
precedence over the prefix. -/
theorem claim_C8 (key e : String) (env : Environment) :
    (strStartsWith key "invo_tok_prod_" = true →
      constructTokenFlowEnvironment none key =
        Except.ok Environment.production) ∧
    (strStartsWith key "invo_tok_sand_" = true →
      constructTokenFlowEnvironment none key =
        Except.ok Environment.sandbox) ∧
    (detectEnvironmentFromToken key = none →
      constructTokenFlowEnvironment none key =
        Except.ok Environment.production) ∧
    (∃ envr, constructTokenFlowEnvironment none key = Except.ok envr) ∧
    (parseEnvString e = some env →
      constructTokenFlowEnvironment (some e) key = Except.ok env) := by
  refine ⟨?_, ?_, ?_, ?_, ?_⟩
  · intro h
    unfold constructTokenFlowEnvironment detectEnvironmentFromToken
    simp [h]
  · intro h
    unfold constructTokenFlowEnvironment detectEnvironmentFromToken
    simp [h, sand_not_prod key h]
  · intro h
    unfold constructTokenFlowEnvironment
    simp [h]
  · exact ⟨(detectEnvironmentFromToken key).getD Environment.production, rfl⟩
  · intro h
    have he : e ≠ "" := by
      intro hcon
      rw [hcon] at h
      simp [parseEnvString] at h
    unfold constructTokenFlowEnvironment
    simp [he, h]

/-- Witness for C8 at the concrete unrecognised key
`"invo_tok_unknown_xyz"`: construction succeeds with production, and
an explicit `"sandbox"` environment overrides the prefix. -/
theorem claim_C8_witness :
    constructTokenFlowEnvironment none "invo_tok_unknown_xyz" =
      Except.ok Environment.production ∧
    constructTokenFlowEnvironment (some "sandbox") "invo_tok_unknown_xyz" =
      Except.ok Environment.sandbox :=
  ⟨(claim_C8 "invo_tok_unknown_xyz" "sandbox" Environment.sandbox).2.2.1
      (by decide),
   (claim_C8 "invo_tok_unknown_xyz" "sandbox" Environment.sandbox).2.2.2.2
      (by decide)⟩

/-- A concrete user object for evaluating the theorems. -/
def exampleUser : UserDto := ⟨"u1", "user@example.com", "client"⟩

/-- A concrete login response for evaluating the theorems. -/
def exampleLogin : LoginResponseDto := ⟨"h.p", "r1", 3600, exampleUser⟩

/-- A concrete password-flow configuration. -/
def examplePwCfg : PwCfg := ⟨"user@example.com", "pw", true, 300⟩

/-- A concrete authenticated password-flow state (the access token
`"h.p"` decodes under `testRuntime` with `exp = 5`). -/
def examplePwState : PwState :=
  ⟨Environment.production, some "h.p", some "r0", some exampleUser, none⟩

/-- A concrete password-flow state with no stored refresh token. -/
def noRefreshPwState : PwState :=
  ⟨Environment.production, some "h.p", none, some exampleUser, none⟩

/-- C5: `refreshAccessToken()` with no stored refresh token fails with
`TokenExpiredError` making no network call; and whenever it fails for
any reason, the stored credentials (access token, refresh token, user)
— indeed the whole mutable state — are exactly what they were before
the call. -/
theorem claim_C5 (rt : JsRuntime) (now : Int) (cfg : PwCfg) (st : PwState)
    (o : FetchOutcome LoginResponseDto) :
    (jsTruthy st.refreshToken = false →
      (runPwRefresh rt now cfg st o).result =
        Except.error (JsError.auth
          (mkTokenExpiredError "No refresh token available")) ∧
      (runPwRefresh rt now cfg st o).fetches = [] ∧
      (runPwRefresh rt now cfg st o).state = st) ∧
    (∀ e, (runPwRefresh rt now cfg st o).result = Except.error e →
      (runPwRefresh rt now cfg st o).state = st) := by
  constructor
  · intro hf
    rcases hrt : st.refreshToken with _ | v
    · unfold runPwRefresh
      simp only [hrt]
      exact ⟨trivial, trivial, trivial⟩
    · have hv : v = "" := by
        rw [jsTruthy.eq_def, hrt] at hf
        simpa using hf
      unfold runPwRefresh
      simp only [hrt, if_pos hv]
      exact ⟨trivial, trivial, trivial⟩
  · intro e he
    rcases hrt : st.refreshToken with _ | v
    · unfold runPwRefresh
      simp only [hrt]
    · by_cases hv : v = ""
      · unfold runPwRefresh
        simp only [hrt, if_pos hv]
      · unfold runPwRefresh at he ⊢
        simp only [hrt, if_neg hv] at he ⊢
        cases o <;>
          simp [runPwNoAuthRequest, catchClassify] at he ⊢

/-- Witness for C5: a concrete state with no stored refresh token under
`testRuntime`. -/
theorem claim_C5_witness :
    (runPwRefresh testRuntime 0 examplePwCfg noRefreshPwState
        (FetchOutcome.okJson exampleLogin)).result =
      Except.error (JsError.auth
        (mkTokenExpiredError "No refresh token available")) ∧
    (runPwRefresh testRuntime 0 examplePwCfg noRefreshPwState
        (FetchOutcome.okJson exampleLogin)).fetches = [] ∧
    (runPwRefresh testRuntime 0 examplePwCfg noRefreshPwState
        (FetchOutcome.okJson exampleLogin)).state = noRefreshPwState :=
  (claim_C5 testRuntime 0 examplePwCfg noRefreshPwState
    (FetchOutcome.okJson exampleLogin)).1 (by decide)

/-- C6: after `logout()` the access token, refresh token and user are
all absent, the scheduled refresh timer is cancelled, the on-logout
observer has been invoked, and `isAuthenticated()` returns `false`;
`logout()` is idempotent — a second `logout()` from the logged-out
state leaves the state unchanged beyond invoking the observer again. -/
theorem claim_C6 (rt : JsRuntime) (now : Int) (st : PwState) :
    (runPwLogout st).1.accessToken = none ∧
    (runPwLogout st).1.refreshToken = none ∧
    (runPwLogout st).1.user = none ∧
    (runPwLogout st).1.refreshTimer = none ∧
    (runPwLogout st).2 = [PwEvent.logoutEvent] ∧
    pwIsAuthenticated rt now (runPwLogout st).1 = false ∧
    runPwLogout (runPwLogout st).1 = ((runPwLogout st).1, [PwEvent.logoutEvent]) := by
  refine ⟨rfl, rfl, rfl, rfl, rfl, ?_, rfl⟩
  simp [pwIsAuthenticated, runPwLogout, jsTruthy]

/-- C9 fails on the code: the public `setEnvironment` mutator changes
the `environment` configuration field of an existing password-flow
instance. -/
theorem claim_C9_counterexample :
    (setEnvironment examplePwState Environment.sandbox).environment ≠
      examplePwState.environment := by
  decide

/-- C9 (amended): the session configuration is immutable after
construction except for the environment, which the password flow's
public `setEnvironment` method mutates; no other operation of either
flow changes any configuration field (the token flow keeps its whole
configuration in the immutable `TokenCfg`, and the password-flow
operations all preserve the `environment` field, while the remaining
password-flow configuration lives in the immutable `PwCfg`). -/
theorem claim_C9_amended (α : Type) (rt : JsRuntime) (now : Int)
    (cfg : PwCfg) (st : PwState) (endpoint : String)
    (ct : Option (Option String)) (env : Environment)
    (o ro : FetchOutcome LoginResponseDto) (mo : FetchOutcome α) :
    (runPwLogin rt now cfg st o).state.environment = st.environment ∧
    (runPwRefresh rt now cfg st o).state.environment = st.environment ∧
    (runPwLogout st).1.environment = st.environment ∧
    (runPwApiRequestAuth α rt now cfg st endpoint ct ro mo).state.environment
      = st.environment ∧
    (setEnvironment st env).environment = env := by
  have hsave : ∀ (st1 : PwState) (r : LoginResponseDto),
      (pwSaveTokens rt now cfg st1 r).environment = st1.environment := by
    intro st1 r
    unfold pwSaveTokens setupAutoRefresh
    by_cases hcr : cfg.autoRefresh
    · simp only [if_pos hcr]
      split
      · rfl
      · split
        · rfl
        · split <;> rfl
    · simp only [if_neg hcr]
  have hrefresh : ∀ o', (runPwRefresh rt now cfg st o').state.environment
      = st.environment := by
    intro o'
    unfold runPwRefresh
    rcases st.refreshToken with _ | v
    · rfl
    · by_cases hv : v = ""
      · simp only [if_pos hv]
      · simp only [if_neg hv]
        cases o' <;> simp [runPwNoAuthRequest, catchClassify, hsave]
  have hmain : ∀ (st1 : PwState) ev0 fr0,
      (pwMainFetch α st1 ev0 fr0 endpoint ct mo).state = st1 := by
    intro st1 ev0 fr0
    unfold pwMainFetch
    cases mo <;> rfl
  refine ⟨?_, hrefresh o, rfl, ?_, rfl⟩
  · unfold runPwLogin
    cases o <;> simp [runPwNoAuthRequest, catchClassify, hsave]
  · unfold runPwApiRequestAuth
    by_cases hacc : jsTruthy st.accessToken = false
    · simp only [if_pos hacc]
    · simp only [if_neg hacc]
      by_cases hexp : isTokenExpired rt now (st.accessToken.getD "") 0
      · simp only [if_pos hexp]
        rcases hrr : runPwRefresh rt now cfg st ro with ⟨res, ev0, st1, fr0⟩
        have hst1 : st1.environment = st.environment := by
          have := hrefresh ro
          rw [hrr] at this
          exact this
        cases res with
        | error e => simpa using hst1
        | ok v => simpa [hmain] using hst1
      · simp only [if_neg hexp]
        rw [hmain st [] []]

/-- A concrete API-token-flow configuration with a workspace. -/
def exampleTokenCfg : TokenCfg :=
  ⟨"invo_tok_prod_k", some "ws1", Environment.production⟩

/-- A concrete API-token-flow configuration without a workspace. -/
def exampleTokenCfgNoWs : TokenCfg :=
  ⟨"invo_tok_prod_k", none, Environment.production⟩

/-- A concrete authenticated API-token-flow state (the token `"h.p"`
decodes under `testRuntime` with `exp = 5`, unexpired at `now = 0`). -/
def exampleTokenState : TokenState := ⟨some "h.p", some exampleUser⟩

/-- C7: for every non-success (`response.ok` false) HTTP response, in
both flows and for every endpoint, status 401 surfaces as
`InvalidCredentialsError` and every other status as the generic
`AuthError` carrying that status code, with the message taken from the
parsed error body's `message` field or the default `"Request failed"`
when the body is unparseable. -/
theorem claim_C7 (α : Type) (rt : JsRuntime) (now : Int) (tcfg : TokenCfg)
    (tst : TokenState) (pcfg : PwCfg) (pst : PwState) (endpoint : String)
    (ct : Option (Option String)) (lo ro : FetchOutcome LoginResponseDto)
    (status : Nat) (body : Option ErrorBody) :
    (status = 401 →
      (classifyFailedResponse status body).kind =
        ErrKind.invalidCredentialsError) ∧
    (status ≠ 401 →
      (classifyFailedResponse status body).kind = ErrKind.authError ∧
      (classifyFailedResponse status body).statusCode = some status) ∧
    (status ≠ 401 → body = none →
      (classifyFailedResponse status body).message = "Request failed") ∧
    (status ≠ 401 → ∀ m, body = some ⟨some m⟩ → m ≠ "" →
      (classifyFailedResponse status body).message = m) ∧
    ((runLoginRequest tcfg (FetchOutcome.httpError status body)).1 =
      Except.error (JsError.auth (classifyFailedResponse status body))) ∧
    (jsTruthy tst.accessToken = true →
      isTokenExpired rt now (tst.accessToken.getD "") 0 = false →
      (runApiRequestAuth α rt now tcfg tst endpoint ct lo
        (FetchOutcome.httpError status body)).result =
        Except.error (JsError.auth (classifyFailedResponse status body))) ∧
    (jsTruthy pst.accessToken = true →
      isTokenExpired rt now (pst.accessToken.getD "") 0 = false →
      (runPwApiRequestAuth α rt now pcfg pst endpoint ct ro
        (FetchOutcome.httpError status body)).result =
        Except.error (JsError.auth (classifyFailedResponse status body))) := by
  refine ⟨?_, ?_, ?_, ?_, ?_, ?_, ?_⟩
  · intro h
    unfold classifyFailedResponse
    simp [h, mkInvalidCredentialsError]
  · intro h
    unfold classifyFailedResponse
    simp [h, mkAuthError]
  · intro h hb
    unfold classifyFailedResponse
    simp [h, hb, mkAuthError, jsOr]
  · intro h m hb hm
    unfold classifyFailedResponse
    simp [h, hb, hm, mkAuthError, jsOr]
  · rfl
  · intro hacc hexp
    have hcond : (jsTruthy tst.accessToken
        && !(isTokenExpired rt now (tst.accessToken.getD "") 0)) = true := by
      rw [hacc, hexp]
      rfl
    have hrw : runApiRequestAuth α rt now tcfg tst endpoint ct lo
        (FetchOutcome.httpError status body) =
        tokenMainFetch α tcfg tst [] [] endpoint ct
          (FetchOutcome.httpError status body) := by
      unfold runApiRequestAuth runEnsureAuthenticated
      rw [if_pos hcond]
      simp [hacc]
    rw [hrw]
    rfl
  · intro hacc hexp
    unfold runPwApiRequestAuth
    rw [if_neg (by simp [hacc]), if_neg (by simp [hexp])]
    rfl

/-- Witness for C7 at a concrete 500 response with unparseable body, on
the concrete authenticated token-flow state. -/
theorem claim_C7_witness :
    (classifyFailedResponse 500 none).kind = ErrKind.authError ∧
    (classifyFailedResponse 500 none).statusCode = some 500 :=
  (claim_C7 Unit testRuntime 0 exampleTokenCfg exampleTokenState
    examplePwCfg examplePwState "/invoice/store" none
    (FetchOutcome.okJson exampleLogin) (FetchOutcome.okJson exampleLogin)
    500 none).2.1 (by decide)

/-- The headers of every request the token flow builds end in the
workspace-header block, and no other header entry uses its name. -/
theorem tokenFlow_fetch_headers (α : Type) (rt : JsRuntime) (now : Int)
    (cfg : TokenCfg) (st : TokenState) (endpoint : String)
    (ct : Option (Option String)) (lo : FetchOutcome LoginResponseDto)
    (mo : FetchOutcome α) :
    (∀ rec ∈ (runLoginWithToken cfg st lo).fetches,
      ∃ pre, rec.headers = pre ++ workspaceHeader cfg.workspace ∧
        ∀ p ∈ pre, p.1 ≠ "X-Workspace-Id") ∧
    (∀ rec ∈ (runApiRequestAuth α rt now cfg st endpoint ct lo mo).fetches,
      ∃ pre, rec.headers = pre ++ workspaceHeader cfg.workspace ∧
        ∀ p ∈ pre, p.1 ≠ "X-Workspace-Id") := by
  have hct : ∀ p ∈ contentTypeHeader ct, p.1 ≠ "X-Workspace-Id" := by
    intro p hp
    rcases ct with _ | cto
    · simp [contentTypeHeader] at hp
      rw [hp]
      exact (by decide : ("Content-Type" : String) ≠ "X-Workspace-Id")
    · rcases cto with _ | s
      · simp [contentTypeHeader] at hp
      · simp [contentTypeHeader] at hp
        rw [hp]
        exact (by decide : ("Content-Type" : String) ≠ "X-Workspace-Id")
  have hlogin : ∀ rec ∈ (runLoginRequest cfg lo).2.2,
      ∃ pre, rec.headers = pre ++ workspaceHeader cfg.workspace ∧
        ∀ p ∈ pre, p.1 ≠ "X-Workspace-Id" := by
    intro rec hrec
    have hr : rec = ⟨apiUrl cfg.environment ++ "/auth/token",
        contentTypeHeader none ++ workspaceHeader cfg.workspace⟩ := by
      cases lo <;> simpa [runLoginRequest, catchClassify] using hrec
    refine ⟨contentTypeHeader none, by rw [hr], ?_⟩
    intro p hp
    simp [contentTypeHeader] at hp
    rw [hp]
    exact (by decide : ("Content-Type" : String) ≠ "X-Workspace-Id")
  constructor
  · intro rec hrec
    unfold runLoginWithToken at hrec
    rcases hres : (runLoginRequest cfg lo) with ⟨res, ev, fr⟩
    rw [hres] at hrec
    have hfr : rec ∈ (runLoginRequest cfg lo).2.2 := by
      rw [hres]
      cases res <;> simpa using hrec
    exact hlogin rec hfr
  · intro rec hrec
    have hens : ∀ r ∈ (runEnsureAuthenticated rt now cfg st lo).fetches,
        ∃ pre, r.headers = pre ++ workspaceHeader cfg.workspace ∧
          ∀ p ∈ pre, p.1 ≠ "X-Workspace-Id" := by
      intro r hr
      unfold runEnsureAuthenticated at hr
      by_cases hok : (jsTruthy st.accessToken
          && !(isTokenExpired rt now (st.accessToken.getD "") 0)) = true
      · rw [if_pos hok] at hr
        simp at hr
      · rw [if_neg hok] at hr
        rcases hlw : runLoginWithToken cfg st lo with ⟨res, ev, st1, fr⟩
        rw [hlw] at hr
        have hmem : r ∈ (runLoginWithToken cfg st lo).fetches := by
          rw [hlw]
          cases res <;> simpa using hr
        unfold runLoginWithToken at hmem
        rcases hres : (runLoginRequest cfg lo) with ⟨res2, ev2, fr2⟩
        rw [hres] at hmem
        have hfr : r ∈ (runLoginRequest cfg lo).2.2 := by
          rw [hres]
          cases res2 <;> simpa using hmem
        exact hlogin r hfr
    unfold runApiRequestAuth at hrec
    rcases hea : runEnsureAuthenticated rt now cfg st lo with ⟨res, ev0, st1, fr0⟩
    rw [hea] at hrec
    have hfr0 : ∀ r ∈ fr0,
        ∃ pre, r.headers = pre ++ workspaceHeader cfg.workspace ∧
          ∀ p ∈ pre, p.1 ≠ "X-Workspace-Id" := by
      intro r hr
      apply hens
      rw [hea]
      exact hr
    cases res with
    | error e =>
      dsimp only at hrec
      exact hfr0 rec (by simpa using hrec)
    | ok v =>
      dsimp only at hrec
      by_cases htok : jsTruthy st1.accessToken = false
      · rw [if_pos htok] at hrec
        exact hfr0 rec (by simpa using hrec)
      · rw [if_neg htok] at hrec
        have hrec2 : rec ∈ fr0 ∨ rec = (⟨apiUrl cfg.environment ++ endpoint,
            contentTypeHeader ct
              ++ [("Authorization", "Bearer " ++ st1.accessToken.getD "")]
              ++ workspaceHeader cfg.workspace⟩ : FetchRecord) := by
          unfold tokenMainFetch at hrec
          cases mo <;>
            simpa only [List.mem_append, List.mem_singleton] using hrec
        rcases hrec2 with h | h
        · exact hfr0 rec h
        · refine ⟨contentTypeHeader ct
            ++ [("Authorization", "Bearer " ++ st1.accessToken.getD "")],
            by rw [h, List.append_assoc], ?_⟩
          intro p hp
          rcases List.mem_append.mp hp with hm | hm
          · exact hct p hm
          · simp at hm
            rw [hm]
            exact (by decide : ("Authorization" : String) ≠ "X-Workspace-Id")

/-- C10: with a configured (truthy) workspace id, every request the
API-token flow builds — including the unauthenticated `/auth/token`
login request — carries the `X-Workspace-Id` header with that value;
with no workspace configured, no request carries that header. -/
theorem claim_C10 (α : Type) (rt : JsRuntime) (now : Int) (cfg : TokenCfg)
    (st : TokenState) (endpoint : String) (ct : Option (Option String))
    (lo : FetchOutcome LoginResponseDto) (mo : FetchOutcome α) :
    (∀ w, cfg.workspace = some w → w ≠ "" →
      (∀ rec ∈ (runLoginWithToken cfg st lo).fetches,
        ("X-Workspace-Id", w) ∈ rec.headers) ∧
      (∀ rec ∈ (runApiRequestAuth α rt now cfg st endpoint ct lo mo).fetches,
        ("X-Workspace-Id", w) ∈ rec.headers)) ∧
    (cfg.workspace = none →
      (∀ rec ∈ (runLoginWithToken cfg st lo).fetches,
        ∀ v, ("X-Workspace-Id", v) ∉ rec.headers) ∧
      (∀ rec ∈ (runApiRequestAuth α rt now cfg st endpoint ct lo mo).fetches,
        ∀ v, ("X-Workspace-Id", v) ∉ rec.headers)) := by
  obtain ⟨hlw, har⟩ := tokenFlow_fetch_headers α rt now cfg st endpoint ct lo mo
  constructor
  · intro w hw hne
    have hws : workspaceHeader cfg.workspace = [("X-Workspace-Id", w)] := by
      rw [hw]
      unfold workspaceHeader
      dsimp only
      rw [if_neg hne]
    constructor
    · intro rec hrec
      obtain ⟨pre, hpre, -⟩ := hlw rec hrec
      rw [hpre, hws]
      simp
    · intro rec hrec
      obtain ⟨pre, hpre, -⟩ := har rec hrec
      rw [hpre, hws]
      simp
  · intro hw
    have hws : workspaceHeader cfg.workspace = [] := by
      rw [hw]
      rfl
    constructor
    · intro rec hrec v hv
      obtain ⟨pre, hpre, hnm⟩ := hlw rec hrec
      rw [hpre, hws, List.append_nil] at hv
      exact hnm _ hv rfl
    · intro rec hrec v hv
      obtain ⟨pre, hpre, hnm⟩ := har rec hrec
      rw [hpre, hws, List.append_nil] at hv
      exact hnm _ hv rfl

/-- Witness for C10: the concrete configuration with workspace `"ws1"`
(and the one without) on a fresh state logging in at `/auth/token`. -/
theorem claim_C10_witness :
    (∀ rec ∈ (runLoginWithToken exampleTokenCfg freshTokenState
        (FetchOutcome.okJson exampleLogin)).fetches,
      ("X-Workspace-Id", "ws1") ∈ rec.headers) ∧
    (∀ rec ∈ (runLoginWithToken exampleTokenCfgNoWs freshTokenState
        (FetchOutcome.okJson exampleLogin)).fetches,
      ∀ v, ("X-Workspace-Id", v) ∉ rec.headers) :=
  ⟨((claim_C10 Unit testRuntime 0 exampleTokenCfg freshTokenState
      "/invoice/store" none (FetchOutcome.okJson exampleLogin)
      (FetchOutcome.okJson ())).1 "ws1" rfl (by decide)).1,
   ((claim_C10 Unit testRuntime 0 exampleTokenCfgNoWs freshTokenState
      "/invoice/store" none (FetchOutcome.okJson exampleLogin)
      (FetchOutcome.okJson ())).2 rfl).1⟩

/-- C4 fails on the code: a facade call on a fresh API-token instance
whose nested auto-login request receives a 500 response invokes the
on-error observer twice — once in the nested `/auth/token` request's
`catch` and once more in the outer request's `catch`, which re-fires
`onError` on the same already-classified error before rethrowing. -/
theorem claim_C4_counterexample :
    (runApiRequestAuth Unit testRuntime 0 exampleTokenCfg freshTokenState
        "/invoice/store" none
        (FetchOutcome.httpError 500 (some ⟨some "boom"⟩))
        (FetchOutcome.okJson ())).result =
      Except.error (JsError.auth (mkAuthError "boom" (some 500))) ∧
    (runApiRequestAuth Unit testRuntime 0 exampleTokenCfg freshTokenState
        "/invoice/store" none
        (FetchOutcome.httpError 500 (some ⟨some "boom"⟩))
        (FetchOutcome.okJson ())).events =
      [mkAuthError "boom" (some 500), mkAuthError "boom" (some 500)] :=
  ⟨rfl, rfl⟩

/-- C4 (amended): the on-error observer fires exactly once per
`apiRequest` execution that ends in a classified error — so exactly
once for a call that needs no nested authentication — but an SDK call
whose failure originates in the nested auto-login (API-token flow) or
nested token refresh (password flow) fires it twice: once in the
nested request and once more in the outer request's `catch`. -/
theorem claim_C4_amended (α : Type) (rt : JsRuntime) (now : Int)
    (cfg : TokenCfg) (tst : TokenState) (pcfg : PwCfg) (pst : PwState)
    (endpoint : String) (ct : Option (Option String))
    (lo : FetchOutcome LoginResponseDto) (mo : FetchOutcome α) :
    (∀ e, (runLoginRequest cfg lo).1 = Except.error (JsError.auth e) →
      (runLoginRequest cfg lo).2.1 = [e]) ∧
    (jsTruthy tst.accessToken = true →
      isTokenExpired rt now (tst.accessToken.getD "") 0 = false →
      ∀ e, (runApiRequestAuth α rt now cfg tst endpoint ct lo mo).result =
          Except.error (JsError.auth e) →
        (runApiRequestAuth α rt now cfg tst endpoint ct lo mo).events = [e]) ∧
    (∀ e, (runLoginRequest cfg lo).1 = Except.error (JsError.auth e) →
      (runApiRequestAuth α rt now cfg freshTokenState endpoint ct lo
          mo).result = Except.error (JsError.auth e) ∧
      (runApiRequestAuth α rt now cfg freshTokenState endpoint ct lo
          mo).events = [e, e]) ∧
    (jsTruthy pst.accessToken = true →
      isTokenExpired rt now (pst.accessToken.getD "") 0 = true →
      jsTruthy pst.refreshToken = true →
      ∀ status body,
        (runPwApiRequestAuth α rt now pcfg pst endpoint ct
            (FetchOutcome.httpError status body) mo).events =
          [PwEvent.errorEvent (classifyFailedResponse status body),
           PwEvent.errorEvent (classifyFailedResponse status body)]) := by
  refine ⟨?_, ?_, ?_, ?_⟩
  · intro e he
    cases lo with
    | reject m =>
      simp [runLoginRequest, catchClassify] at he ⊢
      rw [he]
    | httpError status body =>
      simp [runLoginRequest, catchClassify] at he ⊢
      rw [he]
    | okJson v => simp [runLoginRequest] at he
    | okBadJson m => simp [runLoginRequest] at he
  · intro hacc hexp e
    have hcond : (jsTruthy tst.accessToken
        && !(isTokenExpired rt now (tst.accessToken.getD "") 0)) = true := by
      rw [hacc, hexp]
      rfl
    have hrw : runApiRequestAuth α rt now cfg tst endpoint ct lo mo =
        tokenMainFetch α cfg tst [] [] endpoint ct mo := by
      unfold runApiRequestAuth runEnsureAuthenticated
      rw [if_pos hcond]
      simp [hacc]
    rw [hrw]
    intro he
    cases mo with
    | reject m =>
      simp [tokenMainFetch, catchClassify] at he ⊢
      rw [he]
    | httpError status body =>
      simp [tokenMainFetch, catchClassify] at he ⊢
      rw [he]
    | okJson v => simp [tokenMainFetch] at he
    | okBadJson m => simp [tokenMainFetch] at he
  · intro e he
    have hens : runEnsureAuthenticated rt now cfg freshTokenState lo =
        ⟨Except.error (JsError.auth e), (runLoginRequest cfg lo).2.1,
          freshTokenState, (runLoginRequest cfg lo).2.2⟩ := by
      unfold runEnsureAuthenticated
      rw [if_neg (by simp [freshTokenState, jsTruthy])]
      unfold runLoginWithToken
      rcases hres : runLoginRequest cfg lo with ⟨res, ev, fr⟩
      rw [hres] at he
      dsimp only at he
      rw [he]
    have hev : (runLoginRequest cfg lo).2.1 = [e] := by
      cases lo with
      | reject m =>
        simp [runLoginRequest, catchClassify] at he ⊢
        rw [he]
      | httpError status body =>
        simp [runLoginRequest, catchClassify] at he ⊢
        rw [he]
      | okJson v => simp [runLoginRequest] at he
      | okBadJson m => simp [runLoginRequest] at he
    unfold runApiRequestAuth
    rw [hens]
    dsimp only
    rw [hev]
    exact ⟨rfl, rfl⟩
  · intro hacc hexp hrt status body
    rcases hrv : pst.refreshToken with _ | v
    · rw [jsTruthy.eq_def, hrv] at hrt
      simp at hrt
    · have hv : v ≠ "" := by
        rw [jsTruthy.eq_def, hrv] at hrt
        simpa using hrt
      have href : runPwRefresh rt now pcfg pst
          (FetchOutcome.httpError status body) =
          ⟨Except.error (JsError.auth (classifyFailedResponse status body)),
            [PwEvent.errorEvent (classifyFailedResponse status body)], pst,
            [⟨apiUrl pst.environment ++ "/auth/refresh",
              contentTypeHeader none⟩]⟩ := by
        unfold runPwRefresh
        simp only [hrv, if_neg hv]
        rfl
      unfold runPwApiRequestAuth
      rw [if_neg (by simp [hacc]), if_pos hexp, href]
      rfl

/-- Witness for C4 (amended): on a fresh instance whose login fetch is
refused at transport level, the single SDK call yields the wrapped
`NetworkError` and two on-error invocations. -/
theorem claim_C4_witness :
    (runApiRequestAuth Unit testRuntime 0 exampleTokenCfgNoWs
        freshTokenState "/reader" none
        (FetchOutcome.reject "ECONNREFUSED")
        (FetchOutcome.okJson ())).result =
      Except.error (JsError.auth (mkNetworkError "ECONNREFUSED")) ∧
    (runApiRequestAuth Unit testRuntime 0 exampleTokenCfgNoWs
        freshTokenState "/reader" none
        (FetchOutcome.reject "ECONNREFUSED")
        (FetchOutcome.okJson ())).events =
      [mkNetworkError "ECONNREFUSED", mkNetworkError "ECONNREFUSED"] :=
  (claim_C4_amended Unit testRuntime 0 exampleTokenCfgNoWs
      exampleTokenState examplePwCfg examplePwState "/reader" none
      (FetchOutcome.reject "ECONNREFUSED") (FetchOutcome.okJson ())).2.2.1
    (mkNetworkError "ECONNREFUSED") rfl

/-- C1: under the cooperative concurrent semantics, from a fresh
API-token instance every schedule of `N ≥ 2` concurrent callers of
`ensureAuthenticated` makes at most one `POST /auth/token` network
login call in every reachable state; a caller completes only after the
single login's promise has resolved; and when all callers have
completed, exactly one login call was made. -/
theorem claim_C1 (n : Nat) (hn : 2 ≤ n) (s : Guard.CState n)
    (hreach : Guard.Reach n s) :
    s.loginCalls ≤ 1 ∧
    (∀ i, s.tasks i = Guard.TaskPC.done → s.resolved = true) ∧
    ((∀ i, s.tasks i = Guard.TaskPC.done) →
      s.loginCalls = 1 ∧ s.resolved = true) := by
  obtain ⟨h1, h2, h3, h4, h5, h6, h7, h8⟩ := Guard.inv_reach hreach
  refine ⟨h1, h7, ?_⟩
  intro hall
  have i0 : Fin n := ⟨0, by omega⟩
  have hres : s.resolved = true := h7 i0 (hall i0)
  exact ⟨h4 (h2 hres).2, hres⟩

/-- A concrete two-caller schedule witnessing C1: caller 0 starts the
login, caller 1 joins the in-flight guard, the network responds, the
promise resolves, and both callers complete. -/
def guardS0 : Guard.CState 2 := Guard.initState 2

/-- After caller 0 stores the login promise and initiates the network
login. -/
def guardS1 : Guard.CState 2 :=
  { guardS0 with
    guard := true
    loginCalls := guardS0.loginCalls + 1
    tasks := Guard.setTask guardS0.tasks 0 Guard.TaskPC.waiting }

/-- After caller 1 suspends on the shared in-flight promise. -/
def guardS2 : Guard.CState 2 :=
  { guardS1 with tasks := Guard.setTask guardS1.tasks 1 Guard.TaskPC.waiting }

/-- After the network response for the login arrives. -/
def guardS3 : Guard.CState 2 := { guardS2 with responded := true }

/-- After the login continuation saves the token, the promise resolves
and the guard is cleared. -/
def guardS4 : Guard.CState 2 :=
  { guardS3 with token := true, resolved := true, guard := false }

/-- After caller 0 resumes and completes. -/
def guardS5 : Guard.CState 2 :=
  { guardS4 with tasks := Guard.setTask guardS4.tasks 0 Guard.TaskPC.done }

/-- After caller 1 resumes and completes: the final all-done state. -/
def guardS6 : Guard.CState 2 :=
  { guardS5 with tasks := Guard.setTask guardS5.tasks 1 Guard.TaskPC.done }

/-- The concrete schedule is reachable from the fresh initial state. -/
theorem guardS6_reach : Guard.Reach 2 guardS6 :=
  Guard.Reach.step guardS5 guardS6
    (Guard.Reach.step guardS4 guardS5
      (Guard.Reach.step guardS3 guardS4
        (Guard.Reach.step guardS2 guardS3
          (Guard.Reach.step guardS1 guardS2
            (Guard.Reach.step guardS0 guardS1
              Guard.Reach.init
              (Guard.Step.startLogin guardS0 0 rfl rfl rfl))
            (Guard.Step.startWait guardS1 1 rfl rfl rfl))
          (Guard.Step.respond guardS2 (by decide) rfl))
        (Guard.Step.resolve guardS3 rfl rfl))
      (Guard.Step.wake guardS4 0 rfl rfl))
    (Guard.Step.wake guardS5 1 rfl rfl)

/-- Witness for C1 at the concrete two-caller schedule: exactly one
network login was made and it resolved before completion. -/
theorem claim_C1_witness :
    guardS6.loginCalls = 1 ∧ guardS6.resolved = true :=
  (claim_C1 2 (by decide) guardS6 guardS6_reach).2.2 (by decide)

end InvoSdk
